import Mathlib

/-!
Shallow embedding of
`AutomatedTesting/Gem/PythonTests/largeworlds/dyn_veg/EditorScripts/SurfaceMaskFilter_InclusionList.py`.

The script drives the editor through its scripting buses.  All engine
behaviour (level creation results, property read-backs, the encompassing
AABB, instance counts) is external, so it is modelled as an oracle
(`Engine`).  `run_test` mirrors the straight-line body of
`TestInclusiveSurfaceMasksTag.run_test`: it produces the ordered list of
engine API calls the script performs (`trace`) together with the three
successive values taken by the `test_success` accumulator.

Floating point literals of the script (positions, sizes, 0.9, 2.0) are
carried as rationals: the script never computes with them, it only passes
them through to the engine, so only their identity matters.
-/

namespace SurfaceMaskFilterInclusionList

/-- `azlmbr.math.Vector3`, as used by the script (component literals only). -/
structure Vector3 where
  x : ℚ
  y : ℚ
  z : ℚ
deriving DecidableEq, Repr

/-- An axis-aligned bounding box as returned by `GetEncompassingAabb`.
The script never inspects its contents; it only forwards it to
`GetInstanceCountInAabb`. -/
structure Aabb where
  lo : Vector3
  hi : Vector3
deriving DecidableEq, Repr

/-- Values the script writes to (or reads from) component properties:
`[surface_data.SurfaceTag()]` (a fresh one-element tag list), a concrete
surface tag (an integer id), or a numeric weight such as `0.9`. -/
inductive PValue where
  | defaultSurfaceTagList : PValue
  | surfaceTag (t : Nat) : PValue
  | weight (q : ℚ) : PValue
deriving DecidableEq, Repr

/-- One engine API call (or local diagnostic print/log) performed by the
script, in program order.  `createVegetationArea` stands for
`dynveg.create_vegetation_area`, `createSurfaceEntity` for
`dynveg.create_surface_entity`, `getSetTest` for `hydra.get_set_test`,
`setComponentProperty` for the `EditorComponentAPIBus` broadcast, and
`getComponentPropertyValue` for `hydra.get_component_property_value`. -/
inductive Event where
  | createLevel (name : String) (heightmapResolution heightmapMetersPerPixel terrainTextureResolution : Nat) (useTerrain : Bool)
  | setCurrentViewPosition (x y z : ℚ)
  | createVegetationArea (name : String) (center : Vector3) (w d h : ℚ) (assetPath : String)
  | addComponent (entity componentName : String)
  | createSurfaceEntity (name : String) (center : Vector3) (w d h : ℚ)
  | getSetTest (entity : String) (componentIndex : Nat) (path : String) (value : PValue)
  | setComponentProperty (entity : String) (componentIndex : Nat) (path : String) (value : PValue)
  | getComponentPropertyValue (entity : String) (componentIndex : Nat) (path : String)
  | printMsg (msg : String)
  | logMsg (msg : String)
  | idleWait (seconds : ℚ)
  | getEncompassingAabb (entity : String)
  | getInstanceCountInAabb (box : Aabb)
deriving DecidableEq, Repr

/-- The host engine, seen through the scripting API as an oracle:
the outcome of `create_level`, the value each
`get_component_property_value` read-back returns (keyed by entity,
component index and property path), the box `GetEncompassingAabb`
returns for the spawner, and the instance count each
`GetInstanceCountInAabb` query returns (keyed by query occurrence:
`0` for the first query, `1` for the second). -/
structure Engine where
  createLevelOk : Bool
  readBack : String → Nat → String → PValue
  encompassingAabb : Aabb
  instanceCount : Nat → Aabb → Int

/-- The inner helper `update_surface_tag_inclusion_list` of `run_test`:
its ordered API calls.  It sets a one-element tag list on the inclusion
list, sets element `[0]` to `surface_tag`, reads the value back, prints
success or failure depending on the comparison, then idles 2 seconds. -/
def update_surface_tag_inclusion_list (eng : Engine) (entity : String)
    (component_index : Nat) (surface_tag : Nat) : List Event :=
  let path := "Configuration|Inclusion|Surface Tags|[0]|Surface Tag"
  let new_value := eng.readBack entity component_index path
  [ Event.getSetTest entity component_index "Configuration|Inclusion|Surface Tags" PValue.defaultSurfaceTagList,
    Event.setComponentProperty entity component_index path (PValue.surfaceTag surface_tag),
    Event.getComponentPropertyValue entity component_index path,
    Event.printMsg (if new_value = PValue.surfaceTag surface_tag then
        "Inclusive surface mask filter of terrainHole is added successfully"
      else
        "Failed to add an Inclusive surface mask filter of terrainHole"),
    Event.idleWait 2 ]

/-- The inner helper `update_generated_surface_tag` of `run_test`:
same pattern on the `Generated Tags` list, logging (via `self.log`)
instead of printing, and with no trailing idle wait. -/
def update_generated_surface_tag (eng : Engine) (entity : String)
    (component_index : Nat) (surface_tag : Nat) : List Event :=
  let path := "Configuration|Generated Tags|[0]|Surface Tag"
  let new_value := eng.readBack entity component_index path
  [ Event.getSetTest entity component_index "Configuration|Generated Tags" PValue.defaultSurfaceTagList,
    Event.setComponentProperty entity component_index path (PValue.surfaceTag surface_tag),
    Event.getComponentPropertyValue entity component_index path,
    Event.logMsg (if new_value = PValue.surfaceTag surface_tag then
        "Generated surface tag of " ++ toString surface_tag ++ " is added successfully"
      else
        "Failed to add Generated surface tag of " ++ toString surface_tag) ]

/-- The result of a run: the ordered API-call trace, and the three
successive values of the `test_success` accumulator (`success0` right
after the `create_level` assignment, `success1` after the first
count comparison, `success2` after the second — the final value). -/
structure RunResult where
  trace : List Event
  success0 : Bool
  success1 : Bool
  success2 : Bool
deriving Repr

/-- `TestInclusiveSurfaceMasksTag.run_test`, straight-line as in the
source.  `level` is `self.args["level"]`.  `test_success` is assigned
exactly three times: from `create_level`, then conjoined with
`num_found == 130`, then conjoined with `num_found == 0`. -/
def run_test (eng : Engine) (level : String) : RunResult :=
  let surfaceTagsTerrainHole : Nat := 1327698037
  let surfaceTagsTerrain : Nat := 3363197873
  let success0 := eng.createLevelOk
  let box := eng.encompassingAabb
  let num_found1 := eng.instanceCount 0 box
  let success1 := success0 && (num_found1 == 130)
  let num_found2 := eng.instanceCount 1 box
  let success2 := success1 && (num_found2 == 0)
  { trace :=
      [ Event.createLevel level 1024 1 4096 false,
        Event.setCurrentViewPosition 512 480 38,
        Event.createVegetationArea "Instance Spawner" ⟨512, 512, 32⟩ 10 10 10 "Slices/PurpleFlower.dynamicslice",
        Event.addComponent "Instance Spawner" "Vegetation Surface Mask Filter",
        Event.createSurfaceEntity "Surface Entity 1" ⟨510, 512, 32⟩ 10 10 1 ]
      ++ update_generated_surface_tag eng "Surface Entity 1" 1 surfaceTagsTerrainHole
      ++ [ Event.createSurfaceEntity "Surface Entity 2" ⟨520, 512, 32⟩ 10 10 1 ]
      ++ update_generated_surface_tag eng "Surface Entity 2" 1 surfaceTagsTerrain
      ++ update_surface_tag_inclusion_list eng "Instance Spawner" 3 surfaceTagsTerrainHole
      ++ [ Event.idleWait 2,
           Event.getEncompassingAabb "Instance Spawner",
           Event.getInstanceCountInAabb box,
           Event.logMsg ("Expected 130 instances - Found " ++ toString num_found1 ++ " instances"),
           Event.getSetTest "Instance Spawner" 3 "Configuration|Inclusion|Weight Max" (PValue.weight (9/10)),
           Event.idleWait 2,
           Event.getInstanceCountInAabb box,
           Event.logMsg ("Expected 0 instances - Found " ++ toString num_found2 ++ " instances") ],
    success0 := success0
    success1 := success1
    success2 := success2 }

/-- Recognises a `GetInstanceCountInAabb` query in the trace. -/
def isInstanceCountQuery : Event → Bool
  | Event.getInstanceCountInAabb _ => true
  | _ => false

/-- Recognises a `GetEncompassingAabb` call in the trace. -/
def isGetEncompassingAabbCall : Event → Bool
  | Event.getEncompassingAabb _ => true
  | _ => false

/-- Recognises a diagnostic-only event (a `print` or a `self.log`). -/
def isDiagnostic : Event → Bool
  | Event.printMsg _ => true
  | Event.logMsg _ => true
  | _ => false

/-- Modelled from the spec: `dynveg.create_vegetation_area`
(in `editor_dynveg_test_helper`, which is not under `src/`) "builds a
vegetation spawner entity" — one spawner entity per call — so the number
of spawner entities a run creates is the number of such calls in its
trace. -/
def spawnerEntitiesCreated (tr : List Event) : Nat :=
  tr.countP fun e => match e with
    | Event.createVegetationArea _ _ _ _ _ _ => true
    | _ => false

/-- Modelled from the spec: `dynveg.create_surface_entity`
(in `editor_dynveg_test_helper`, which is not under `src/`) builds one
surface entity per call, so the number of surface entities a run creates
is the number of such calls in its trace. -/
def surfaceEntitiesCreated (tr : List Event) : Nat :=
  tr.countP fun e => match e with
    | Event.createSurfaceEntity _ _ _ _ _ => true
    | _ => false

/-- The property paths under `Configuration|Inclusion` that the script
ever writes: the inclusion surface-tag list, its element `[0]`, and the
inclusion weight maximum. -/
def inclusionPath (path : String) : Bool :=
  path == "Configuration|Inclusion|Surface Tags" ||
  path == "Configuration|Inclusion|Surface Tags|[0]|Surface Tag" ||
  path == "Configuration|Inclusion|Weight Max"

/-- Recognises a configuration write that touches the spawner's
surface-mask-filter inclusion settings. -/
def isInclusionConfig : Event → Bool
  | Event.getSetTest _ _ path _ => inclusionPath path
  | Event.setComponentProperty _ _ path _ => inclusionPath path
  | _ => false

/-!  The same script in an exception-aware view.  The Python has no
`try`/`except`: each scripting-API call may raise, and a raised exception
aborts `run_test` where it occurred.  `EngineE` gives each API call site
a fallible result and `run_test_exc` sequences the same calls in the
`Except` monad, so an `Except.error` at any call propagates to the
result of the whole run — exactly the absence of interception. -/

/-- A concrete box for concrete runs. -/
def boxA : Aabb := ⟨⟨507, 507, 27⟩, ⟨517, 517, 37⟩⟩

/-- A concrete engine oracle on which the whole test passes: level
creation succeeds, every property read-back returns the value the script
set, the first count query returns 130 and the second 0. -/
def engGood : Engine where
  createLevelOk := true
  readBack := fun entity _ _ =>
    if entity = "Surface Entity 2" then PValue.surfaceTag 3363197873
    else PValue.surfaceTag 1327698037
  encompassingAabb := boxA
  instanceCount := fun i _ => if i = 0 then 130 else 0

/-- Like `engGood`, except every property read-back returns a surface
tag (id 0) different from every tag the script sets. -/
def engBad : Engine := { engGood with readBack := fun _ _ _ => PValue.surfaceTag 0 }

set_option maxRecDepth 8000

/-- Claim C1: with the inclusion list containing the terrainHole tag and
default inclusion weights, the first instance-count check expects
exactly 130: the script queries `GetInstanceCountInAabb` over the
spawner's encompassing AABB and, level creation having succeeded,
`test_success` remains true after this step iff the engine reports
exactly 130 instances. -/
theorem C1_first_count_check_expects_130 (eng : Engine) (level : String)
    (h : eng.createLevelOk = true) :
    (run_test eng level).trace[21]? = some (Event.getInstanceCountInAabb eng.encompassingAabb) ∧
    ((run_test eng level).success1 = true ↔ eng.instanceCount 0 eng.encompassingAabb = 130) := by
  refine ⟨rfl, ?_⟩
  have hs : (run_test eng level).success1
      = (eng.createLevelOk && (eng.instanceCount 0 eng.encompassingAabb == 130)) := rfl
  rw [hs, h, Bool.true_and]
  simp

/-- Witness for C1 at the concrete engine `engGood`. -/
theorem C1_first_count_check_witness :
    engGood.createLevelOk = true ∧
    ((run_test engGood "TestLevel").trace[21]? = some (Event.getInstanceCountInAabb engGood.encompassingAabb) ∧
     ((run_test engGood "TestLevel").success1 = true ↔ engGood.instanceCount 0 engGood.encompassingAabb = 130)) :=
  ⟨rfl, C1_first_count_check_expects_130 engGood "TestLevel" rfl⟩

/-- Claim C2: after `Configuration|Inclusion|Weight Max` is set to 0.9,
the second instance-count check expects exactly 0: the script re-queries
`GetInstanceCountInAabb` on the same box and, `test_success` being true
up to that point, it remains true after this step iff the engine reports
zero instances. -/
theorem C2_second_count_check_expects_zero (eng : Engine) (level : String)
    (h : (run_test eng level).success1 = true) :
    (run_test eng level).trace[23]? = some (Event.getSetTest "Instance Spawner" 3 "Configuration|Inclusion|Weight Max" (PValue.weight (9/10))) ∧
    (run_test eng level).trace[25]? = some (Event.getInstanceCountInAabb eng.encompassingAabb) ∧
    ((run_test eng level).success2 = true ↔ eng.instanceCount 1 eng.encompassingAabb = 0) := by
  refine ⟨rfl, rfl, ?_⟩
  have hs : (run_test eng level).success2
      = ((run_test eng level).success1 && (eng.instanceCount 1 eng.encompassingAabb == 0)) := rfl
  rw [hs, h, Bool.true_and]
  simp

/-- Witness for C2 at the concrete engine `engGood`. -/
theorem C2_second_count_check_witness :
    (run_test engGood "TestLevel").success1 = true ∧
    ((run_test engGood "TestLevel").trace[23]? = some (Event.getSetTest "Instance Spawner" 3 "Configuration|Inclusion|Weight Max" (PValue.weight (9/10))) ∧
     (run_test engGood "TestLevel").trace[25]? = some (Event.getInstanceCountInAabb engGood.encompassingAabb) ∧
     ((run_test engGood "TestLevel").success2 = true ↔ engGood.instanceCount 1 engGood.encompassingAabb = 0)) :=
  ⟨by decide, C2_second_count_check_expects_zero engGood "TestLevel" (by decide)⟩

/-- Claim C3: `test_success` is a monotonically non-increasing boolean
accumulator: it is assigned once from `create_level` and thereafter only
updated by conjunction with the two count comparisons, so once false it
is false at every later step, and its final value is true iff level
creation succeeded and both observed counts equal their expected
literals. -/
theorem C3_test_success_monotone_accumulator (eng : Engine) (level : String) :
    (run_test eng level).success0 = eng.createLevelOk ∧
    (run_test eng level).success1
      = ((run_test eng level).success0 && (eng.instanceCount 0 eng.encompassingAabb == 130)) ∧
    (run_test eng level).success2
      = ((run_test eng level).success1 && (eng.instanceCount 1 eng.encompassingAabb == 0)) ∧
    (run_test eng level).success1 ≤ (run_test eng level).success0 ∧
    (run_test eng level).success2 ≤ (run_test eng level).success1 ∧
    ((run_test eng level).success2 = true ↔
      (eng.createLevelOk = true ∧ eng.instanceCount 0 eng.encompassingAabb = 130 ∧
       eng.instanceCount 1 eng.encompassingAabb = 0)) := by
  refine ⟨rfl, rfl, rfl, ?_, ?_, ?_⟩
  · show (eng.createLevelOk && (eng.instanceCount 0 eng.encompassingAabb == 130))
      ≤ eng.createLevelOk
    exact Bool.and_le_left _ _
  · show ((eng.createLevelOk && (eng.instanceCount 0 eng.encompassingAabb == 130))
        && (eng.instanceCount 1 eng.encompassingAabb == 0))
      ≤ (eng.createLevelOk && (eng.instanceCount 0 eng.encompassingAabb == 130))
    exact Bool.and_le_left _ _
  · simp [run_test, and_assoc]

/-- Claim C4 fails on the code: at the concrete engine `engBad` the value
read back differs from the value that was set — the script prints its
failure diagnostic — yet the run still ends with `test_success = true`,
so the mismatch does not mark the test as failed. -/
theorem C4_readback_mismatch_counterexample :
    engBad.readBack "Instance Spawner" 3 "Configuration|Inclusion|Surface Tags|[0]|Surface Tag"
      ≠ PValue.surfaceTag 1327698037 ∧
    (run_test engBad "TestLevel").trace[17]?
      = some (Event.printMsg "Failed to add an Inclusive surface mask filter of terrainHole") ∧
    (run_test engBad "TestLevel").success2 = true :=
  ⟨by decide, by decide, by decide⟩

/-- Claim C4 amended: the script reads back each surface-tag property it
sets and compares the value read to the value set; a mismatch at any of
the three sites produces only a failure diagnostic (a print or log
line), and the final `test_success` is still determined solely by level
creation and the two count comparisons. -/
theorem C4_readback_mismatch_only_logged (eng : Engine) (level : String)
    (h1 : eng.readBack "Surface Entity 1" 1 "Configuration|Generated Tags|[0]|Surface Tag" ≠ PValue.surfaceTag 1327698037)
    (h2 : eng.readBack "Surface Entity 2" 1 "Configuration|Generated Tags|[0]|Surface Tag" ≠ PValue.surfaceTag 3363197873)
    (h3 : eng.readBack "Instance Spawner" 3 "Configuration|Inclusion|Surface Tags|[0]|Surface Tag" ≠ PValue.surfaceTag 1327698037) :
    (run_test eng level).trace[8]? = some (Event.logMsg "Failed to add Generated surface tag of 1327698037") ∧
    (run_test eng level).trace[13]? = some (Event.logMsg "Failed to add Generated surface tag of 3363197873") ∧
    (run_test eng level).trace[17]? = some (Event.printMsg "Failed to add an Inclusive surface mask filter of terrainHole") ∧
    (run_test eng level).success2
      = (eng.createLevelOk && (eng.instanceCount 0 eng.encompassingAabb == 130)
          && (eng.instanceCount 1 eng.encompassingAabb == 0)) := by
  refine ⟨?_, ?_, ?_, rfl⟩
  · have hev : (run_test eng level).trace[8]?
        = some (Event.logMsg (if eng.readBack "Surface Entity 1" 1 "Configuration|Generated Tags|[0]|Surface Tag" = PValue.surfaceTag 1327698037 then
            "Generated surface tag of " ++ toString (1327698037 : Nat) ++ " is added successfully"
          else
            "Failed to add Generated surface tag of " ++ toString (1327698037 : Nat))) := rfl
    rw [hev, if_neg h1]
    rfl
  · have hev : (run_test eng level).trace[13]?
        = some (Event.logMsg (if eng.readBack "Surface Entity 2" 1 "Configuration|Generated Tags|[0]|Surface Tag" = PValue.surfaceTag 3363197873 then
            "Generated surface tag of " ++ toString (3363197873 : Nat) ++ " is added successfully"
          else
            "Failed to add Generated surface tag of " ++ toString (3363197873 : Nat))) := rfl
    rw [hev, if_neg h2]
    rfl
  · have hev : (run_test eng level).trace[17]?
        = some (Event.printMsg (if eng.readBack "Instance Spawner" 3 "Configuration|Inclusion|Surface Tags|[0]|Surface Tag" = PValue.surfaceTag 1327698037 then
            "Inclusive surface mask filter of terrainHole is added successfully"
          else
            "Failed to add an Inclusive surface mask filter of terrainHole")) := rfl
    rw [hev, if_neg h3]

/-- Witness for the amended C4 at the concrete engine `engBad`. -/
theorem C4_readback_mismatch_witness :
    (engBad.readBack "Surface Entity 1" 1 "Configuration|Generated Tags|[0]|Surface Tag" ≠ PValue.surfaceTag 1327698037) ∧
    (engBad.readBack "Surface Entity 2" 1 "Configuration|Generated Tags|[0]|Surface Tag" ≠ PValue.surfaceTag 3363197873) ∧
    (engBad.readBack "Instance Spawner" 3 "Configuration|Inclusion|Surface Tags|[0]|Surface Tag" ≠ PValue.surfaceTag 1327698037) ∧
    ((run_test engBad "TestLevel").trace[8]? = some (Event.logMsg "Failed to add Generated surface tag of 1327698037") ∧
     (run_test engBad "TestLevel").trace[13]? = some (Event.logMsg "Failed to add Generated surface tag of 3363197873") ∧
     (run_test engBad "TestLevel").trace[17]? = some (Event.printMsg "Failed to add an Inclusive surface mask filter of terrainHole") ∧
     (run_test engBad "TestLevel").success2
       = (engBad.createLevelOk && (engBad.instanceCount 0 engBad.encompassingAabb == 130)
           && (engBad.instanceCount 1 engBad.encompassingAabb == 0))) :=
  ⟨by decide, by decide, by decide,
    C4_readback_mismatch_only_logged engBad "TestLevel" (by decide) (by decide) (by decide)⟩

/-- Claim C5 fails on the code: on the concrete engine `engGood`, the
first `GetInstanceCountInAabb` query (trace position 21) is immediately
preceded by the `GetEncompassingAabb` call, not by an `idle_wait(2.0)`
— so not every count query is immediately preceded in the call sequence
by the idle wait. -/
theorem C5_immediate_wait_counterexample :
    ¬ (∀ i e, (run_test engGood "TestLevel").trace[i]? = some e →
        isInstanceCountQuery e = true →
        ∃ j, i = j + 1 ∧ (run_test engGood "TestLevel").trace[j]? = some (Event.idleWait 2)) := by
  intro h
  obtain ⟨j, hj, hget⟩ := h 21 (Event.getInstanceCountInAabb boxA) (by decide) rfl
  have hj20 : j = 20 := by omega
  subst hj20
  rw [show (run_test engGood "TestLevel").trace[20]?
      = some (Event.getEncompassingAabb "Instance Spawner") from rfl] at hget
  simp at hget

/-- Claim C5 amended: every `GetInstanceCountInAabb` query is preceded
by a fixed-duration `idle_wait(2.0)` settle delay, either immediately or
with only the read-only `GetEncompassingAabb` call standing between the
wait and the query; in particular no configuration change happens
between the settle delay and the query. -/
theorem C5_settle_wait_before_each_query (eng : Engine) (level : String) :
    ∀ i e, (run_test eng level).trace[i]? = some e → isInstanceCountQuery e = true →
      ((run_test eng level).trace[i - 1]? = some (Event.idleWait 2) ∨
       ((run_test eng level).trace[i - 1]? = some (Event.getEncompassingAabb "Instance Spawner") ∧
        (run_test eng level).trace[i - 2]? = some (Event.idleWait 2))) := by
  intro i e h hq
  have hlen : i < 27 := by
    by_contra hge
    rw [List.getElem?_eq_none
      (show (run_test eng level).trace.length ≤ i from Nat.le_of_not_lt hge)] at h
    exact Option.noConfusion h
  interval_cases i <;>
    first
      | exact Or.inl rfl
      | exact Or.inr ⟨rfl, rfl⟩
      | (injection h with h'; subst h'; exact Bool.noConfusion hq)

/-- Witness for the amended C5: the second count query of the concrete
run on `engGood`, at trace position 25, is immediately preceded by the
idle wait. -/
theorem C5_settle_wait_witness :
    (run_test engGood "TestLevel").trace[24]? = some (Event.idleWait 2) ∨
    ((run_test engGood "TestLevel").trace[24]? = some (Event.getEncompassingAabb "Instance Spawner") ∧
     (run_test engGood "TestLevel").trace[23]? = some (Event.idleWait 2)) :=
  C5_settle_wait_before_each_query engGood "TestLevel" 25
    (Event.getInstanceCountInAabb boxA) (by decide) rfl

/-- Claim C6: `run_test` issues exactly two `GetInstanceCountInAabb`
queries over the whole execution — one before the Weight-Max change
(position 21) and one after it (position 25) — and conjoins each
observed count against its expected literal, 130 for the first and 0
for the second. -/
theorem C6_exactly_two_count_queries (eng : Engine) (level : String) :
    (run_test eng level).trace.countP isInstanceCountQuery = 2 ∧
    (run_test eng level).trace[21]? = some (Event.getInstanceCountInAabb eng.encompassingAabb) ∧
    (run_test eng level).trace[23]? = some (Event.getSetTest "Instance Spawner" 3 "Configuration|Inclusion|Weight Max" (PValue.weight (9/10))) ∧
    (run_test eng level).trace[25]? = some (Event.getInstanceCountInAabb eng.encompassingAabb) ∧
    (run_test eng level).success1
      = ((run_test eng level).success0 && (eng.instanceCount 0 eng.encompassingAabb == 130)) ∧
    (run_test eng level).success2
      = ((run_test eng level).success1 && (eng.instanceCount 1 eng.encompassingAabb == 0)) :=
  ⟨rfl, rfl, rfl, rfl, rfl, rfl⟩

/-- Claim C7: `run_test` creates exactly one vegetation spawner entity
and exactly two surface entities, assigns generated surface tag
1327698037 (terrainHole) to `Surface Entity 1` and 3363197873 (terrain)
to `Surface Entity 2`, all before the first write that configures the
spawner's surface-mask-filter inclusion settings (the inclusion-list tag
assignment at trace position 15, preceded by no inclusion write in the
first 14 events). -/
theorem C7_one_spawner_two_tagged_surfaces (eng : Engine) (level : String) :
    spawnerEntitiesCreated (run_test eng level).trace = 1 ∧
    surfaceEntitiesCreated (run_test eng level).trace = 2 ∧
    (run_test eng level).trace[2]? = some (Event.createVegetationArea "Instance Spawner" ⟨512, 512, 32⟩ 10 10 10 "Slices/PurpleFlower.dynamicslice") ∧
    (run_test eng level).trace[4]? = some (Event.createSurfaceEntity "Surface Entity 1" ⟨510, 512, 32⟩ 10 10 1) ∧
    (run_test eng level).trace[6]? = some (Event.setComponentProperty "Surface Entity 1" 1 "Configuration|Generated Tags|[0]|Surface Tag" (PValue.surfaceTag 1327698037)) ∧
    (run_test eng level).trace[9]? = some (Event.createSurfaceEntity "Surface Entity 2" ⟨520, 512, 32⟩ 10 10 1) ∧
    (run_test eng level).trace[11]? = some (Event.setComponentProperty "Surface Entity 2" 1 "Configuration|Generated Tags|[0]|Surface Tag" (PValue.surfaceTag 3363197873)) ∧
    ((run_test eng level).trace.take 14).countP isInclusionConfig = 0 ∧
    (run_test eng level).trace[15]? = some (Event.setComponentProperty "Instance Spawner" 3 "Configuration|Inclusion|Surface Tags|[0]|Surface Tag" (PValue.surfaceTag 1327698037)) :=
  ⟨rfl, rfl, rfl, rfl, rfl, rfl, rfl, rfl, rfl⟩

/-- Claim C9: the surface-tag read-back comparisons affect only the
printed and logged diagnostics, never `test_success`: two engines that
agree on everything except the read-back values give runs with
identical `test_success` values at all three assignment points and
identical traces once diagnostic lines are removed. -/
theorem C9_readback_affects_only_diagnostics (e1 e2 : Engine) (level : String)
    (hc : e1.createLevelOk = e2.createLevelOk)
    (ha : e1.encompassingAabb = e2.encompassingAabb)
    (hi : e1.instanceCount = e2.instanceCount) :
    (run_test e1 level).success0 = (run_test e2 level).success0 ∧
    (run_test e1 level).success1 = (run_test e2 level).success1 ∧
    (run_test e1 level).success2 = (run_test e2 level).success2 ∧
    (run_test e1 level).trace.filter (fun e => ! isDiagnostic e)
      = (run_test e2 level).trace.filter (fun e => ! isDiagnostic e) := by
  refine ⟨?_, ?_, ?_, ?_⟩
  · simp [run_test, hc]
  · simp [run_test, hc, ha, hi]
  · simp [run_test, hc, ha, hi]
  · simp [run_test, update_generated_surface_tag, update_surface_tag_inclusion_list,
      isDiagnostic, List.filter, hc, ha, hi]

/-- Witness for C9 at the concrete engines `engGood` and `engBad`, which
differ only in their read-back values. -/
theorem C9_readback_frame_witness :
    (run_test engGood "TestLevel").success0 = (run_test engBad "TestLevel").success0 ∧
    (run_test engGood "TestLevel").success1 = (run_test engBad "TestLevel").success1 ∧
    (run_test engGood "TestLevel").success2 = (run_test engBad "TestLevel").success2 ∧
    (run_test engGood "TestLevel").trace.filter (fun e => ! isDiagnostic e)
      = (run_test engBad "TestLevel").trace.filter (fun e => ! isDiagnostic e) :=
  C9_readback_affects_only_diagnostics engGood engBad "TestLevel" rfl rfl rfl

/-- Claim C10: the encompassing AABB is obtained from
`GetEncompassingAabb` exactly once (trace position 20), before the
Weight-Max change (position 23), and the very same box value — the
engine's answer to that single call — is the argument of both count
queries (positions 21 and 25), so both count assertions quantify over
the identical spatial region. -/
theorem C10_single_aabb_reused (eng : Engine) (level : String) :
    (run_test eng level).trace.countP isGetEncompassingAabbCall = 1 ∧
    (run_test eng level).trace[20]? = some (Event.getEncompassingAabb "Instance Spawner") ∧
    (run_test eng level).trace[23]? = some (Event.getSetTest "Instance Spawner" 3 "Configuration|Inclusion|Weight Max" (PValue.weight (9/10))) ∧
    (run_test eng level).trace[21]? = some (Event.getInstanceCountInAabb eng.encompassingAabb) ∧
    (run_test eng level).trace[25]? = some (Event.getInstanceCountInAabb eng.encompassingAabb) ∧
    (run_test eng level).trace.countP isInstanceCountQuery = 2 :=
  ⟨rfl, rfl, rfl, rfl, rfl, rfl⟩

end SurfaceMaskFilterInclusionList
